import Mathlib

/-!
Verification of the Policy & Gate decision engine and the Issue state machine of the
self-evolving-app repository.

The Python sources `app/policy_gate.py`, `app/state_management.py` and `app/models.py`
are shallowly embedded below.  Python strings are modelled by `String`, Python string
primitives (`lower`, `strip`, `startswith`, substring containment `in`, `count`) by
explicit functions over `String.data`; Python dicts holding heterogeneous constraint
values by association lists over a closed value type `CVal`; Python exceptions by
`Except String`.  The `timestamp` field of `PolicyDecisionModel` is informational only
(never read by any decision logic) and is omitted.
-/

namespace SelfEvolvingApp

/-- Embedding of the Python string method `lower` (`str.lower`), character-wise. -/
def pyLower (s : String) : String := ⟨s.data.map Char.toLower⟩

/-- Embedding of the Python string method `strip` with no argument: drop leading and
trailing whitespace. -/
def pyStrip (s : String) : String :=
  ⟨((s.data.dropWhile Char.isWhitespace).reverse.dropWhile Char.isWhitespace).reverse⟩

/-- Embedding of the Python string method `startswith`. -/
def pyStartswith (s pre : String) : Bool := pre.data.isPrefixOf s.data

/-- Helper for substring containment: does `sub` occur inside the character list? -/
def containsAux (sub : List Char) : List Char → Bool
  | [] => sub.isEmpty
  | c :: cs => sub.isPrefixOf (c :: cs) || containsAux sub cs

/-- Embedding of the Python substring test `sub in hay`. -/
def pyContains (hay sub : String) : Bool := containsAux sub.data hay.data

/-- Embedding of the Python string method `count` for a single character. -/
def pyCount (s : String) (c : Char) : Nat := s.data.count c

/-- Python truthiness of an optional string: `not x` is true when the value is
`None` or the empty string. -/
def pyFalsy : Option String → Bool
  | none => true
  | some s => s == ""

/-- Embedding of the Python expression `x or d` on an optional string: the default is
taken when the value is `None` or empty (falsy). -/
def pyOr (o : Option String) (d : String) : String :=
  match o with
  | none => d
  | some s => if s == "" then d else s

/-- Closed type of the values stored in `constraints` dicts of `PolicyDecisionModel`
(`app/policy_gate.py` stores strings, ints, booleans and lists of strings there). -/
inductive CVal where
  | str (s : String)
  | nat (n : Nat)
  | bool (b : Bool)
  | strList (xs : List String)
deriving DecidableEq, Repr

/-- Embedding of `StageContext` from `app/models.py`. -/
structure StageContext where
  issue_id : Int
  current_stage : String
  request_type : String
  source : String
  priority : Option String
  severity : Option String
  trace_id : String
  issue_content : String
  workflow_artifacts : List String
deriving DecidableEq, Repr

/-- Embedding of `ChangeContext` from `app/models.py`.  `diff_stats` is carried but
never read by the evaluator; `test_results` is an optional dict whose values the code
reads as booleans -- modelled as an association list to `Bool`. -/
structure ChangeContext where
  changed_files : List String
  diff_stats : List (String × Nat)
  ci_status : String
  test_results : Option (List (String × Bool))
deriving DecidableEq, Repr

/-- Embedding of `PolicyDecisionModel` from `app/models.py` (timestamp omitted: it is
documented as informational and never used in decision logic). -/
structure PolicyDecisionModel where
  decision : String
  reason : String
  constructed_prompt : Option String := none
  constraints : List (String × CVal) := []
deriving DecidableEq, Repr

/-- Result dict of the private check helpers of `PolicyGateComponent`
(`_evaluate_content_appropriateness`, `_evaluate_stage_constraints`). -/
structure CheckResult where
  decision : String
  reason : String
  constraints : List (String × CVal)
deriving DecidableEq, Repr

/-- The denylist `inappropriate_patterns` of
`PolicyGateComponent._evaluate_content_appropriateness`. -/
def inappropriate_patterns : List String :=
  ["delete everything", "rm -rf", "drop database", "format hard drive",
   "shutdown system", "hack", "exploit", "backdoor"]

/-- Embedding of `PolicyGateComponent._evaluate_content_appropriateness`. -/
def evaluate_content_appropriateness (context : StageContext) : CheckResult :=
  let content := pyLower context.issue_content
  match inappropriate_patterns.find? (fun pattern => pyContains content pattern) with
  | some pattern =>
    { decision := "block"
      reason := "Content contains inappropriate pattern: \x27" ++ pattern ++ "\x27"
      constraints := [("blocked_patterns", CVal.strList inappropriate_patterns)] }
  | none =>
    if (pyStrip context.issue_content).length < 10 then
      { decision := "block"
        reason := "Issue content too short, minimum 10 characters required"
        constraints := [("min_content_length", CVal.nat 10)] }
    else if pyCount context.issue_content '!' > 10 ∨ pyCount context.issue_content '?' > 10 then
      { decision := "review_required"
        reason := "Content appears spam-like, requires human review"
        constraints := [("spam_indicators", CVal.str "excessive_punctuation")] }
    else
      { decision := "allow", reason := "Content is appropriate", constraints := [] }

/-- One entry of the stage-constraints table of
`PolicyGateComponent._load_stage_constraints`. -/
structure StageConfig where
  allowed_request_types : List String
  source_policy : String
  scope_limits : List String
  output_format : String
  max_response_length : Nat
  required_artifacts : List String
deriving DecidableEq, Repr

/-- Embedding of `PolicyGateComponent._load_stage_constraints`: the static
stage-constraints table, in the insertion order of the Python dict. -/
def stage_constraints : List (String × StageConfig) :=
  [ ("triage",
     { allowed_request_types := ["bug", "feature", "investigate"]
       source_policy := "all_allowed"
       scope_limits := ["analyze problem only", "no code changes",
                        "no implementation suggestions",
                        "focus on understanding and clarification"]
       output_format := "structured triage report"
       max_response_length := 2000
       required_artifacts := [] }),
    ("plan",
     { allowed_request_types := ["bug", "feature"]
       source_policy := "all_allowed"
       scope_limits := ["create implementation plan only", "no actual code implementation",
                        "focus on approach and design", "include test strategy"]
       output_format := "structured implementation plan"
       max_response_length := 3000
       required_artifacts := ["triage_report"] }),
    ("prioritize",
     { allowed_request_types := ["bug", "feature"]
       source_policy := "all_allowed"
       scope_limits := ["assess priority only", "no implementation decisions",
                        "focus on value and effort analysis"]
       output_format := "priority recommendation with justification"
       max_response_length := 1500
       required_artifacts := ["triage_report", "implementation_plan"] }),
    ("implement",
     { allowed_request_types := ["bug", "feature"]
       source_policy := "user_only"
       scope_limits := ["implement approved plan only", "include comprehensive tests",
                        "follow existing code patterns",
                        "no architectural changes without approval"]
       output_format := "code implementation with tests"
       max_response_length := 10000
       required_artifacts := ["triage_report", "implementation_plan",
                              "priority_assessment", "human_approval"] }) ]

/-- Embedding of `PolicyGateComponent._is_valid_stage`. -/
def is_valid_stage (stage : String) : Bool :=
  (stage_constraints.lookup stage).isSome

/-- Embedding of `PolicyGateComponent._is_request_type_allowed`.  The Python body
indexes the table directly; it is only called on validated stages, so the `none`
branch models the impossible `KeyError` as `false`. -/
def is_request_type_allowed (request_type stage : String) : Bool :=
  match stage_constraints.lookup stage with
  | some cfg => cfg.allowed_request_types.contains request_type
  | none => false

/-- Embedding of `PolicyGateComponent._is_source_allowed`. -/
def is_source_allowed (source stage : String) : Bool :=
  match stage_constraints.lookup stage with
  | some cfg =>
    if cfg.source_policy == "all_allowed" then true
    else if cfg.source_policy == "user_only" then source == "user"
    else if cfg.source_policy == "monitor_requires_review" then source == "user"
    else false
  | none => false

/-- Embedding of `PolicyGateComponent._get_allowed_request_types`
(`self._stage_constraints.get(stage, ...)` with an empty-list default). -/
def get_allowed_request_types (stage : String) : List String :=
  match stage_constraints.lookup stage with
  | some cfg => cfg.allowed_request_types
  | none => []

/-- The `required_artifacts` entry a stage config carries
(`stage_config.get("required_artifacts", ...)` with an empty-list default). -/
def required_artifacts_of (stage : String) : List String :=
  match stage_constraints.lookup stage with
  | some cfg => cfg.required_artifacts
  | none => []

/-- Embedding of `PolicyGateComponent._evaluate_stage_constraints`. -/
def evaluate_stage_constraints (context : StageContext) : CheckResult :=
  let required_artifacts := required_artifacts_of context.current_stage
  if context.current_stage == "prioritize" && pyFalsy context.priority then
    { decision := "block"
      reason := "Priority information required for prioritization stage"
      constraints := [("required_fields", CVal.strList ["priority"])] }
  else if context.current_stage == "triage" && context.request_type == "bug"
       && pyFalsy context.severity then
    { decision := "block"
      reason := "Severity information required for bug triage"
      constraints := [("required_fields", CVal.strList ["severity"])] }
  else
    let missing_artifacts :=
      required_artifacts.filter (fun artifact => !(context.workflow_artifacts.contains artifact))
    if !missing_artifacts.isEmpty then
      { decision := "block"
        reason := "Missing required artifacts: " ++ String.intercalate ", " missing_artifacts
        constraints := [("required_artifacts", CVal.strList required_artifacts),
                        ("missing", CVal.strList missing_artifacts)] }
    else
      { decision := "allow", reason := "Stage constraints satisfied", constraints := [] }

/-- Chunks of a prompt template: literal text interleaved with the placeholders that
`PolicyGateComponent._construct_constrained_prompt` interpolates via `str.format`. -/
inductive TChunk where
  | lit (s : String)
  | requestType
  | sourceVar
  | issueContent
  | traceId
  | constraintsVar
  | priorityVar
  | severityVar
deriving DecidableEq, Repr

/-- Value substituted for one template chunk, mirroring the keyword arguments of the
`template.format(...)` call in `_construct_constrained_prompt`. -/
def render_chunk (context : StageContext) (constraint_text : String) : TChunk → String
  | .lit s => s
  | .requestType => context.request_type
  | .sourceVar => context.source
  | .issueContent => context.issue_content
  | .traceId => context.trace_id
  | .constraintsVar => constraint_text
  | .priorityVar => pyOr context.priority "not specified"
  | .severityVar => pyOr context.severity "not specified"

/-- Embedding of `str.format` applied to a whole template. -/
def format_template (template : List TChunk) (context : StageContext)
    (constraint_text : String) : String :=
  match template with
  | [] => ""
  | c :: rest => render_chunk context constraint_text c ++ format_template rest context constraint_text

/-- Modelled from the spec: the prompt template files under `templates/prompts/` are
not part of the sources given; per the spec the Template Store provides one template
per LLM stage, a string containing the placeholders for request type, source, issue
content, trace id, constraints text, priority and severity, each validated to be
present.  Each modelled template interpolates every placeholder exactly once,
surrounded by stage-named literal text. -/
def mkTemplate (stage_name : String) : List TChunk :=
  [ .lit ("You are acting in the " ++ stage_name ++ " stage.\nRequest type: "),
    .requestType, .lit "\nSource: ", .sourceVar, .lit "\nTrace ID: ", .traceId,
    .lit "\nPriority: ", .priorityVar, .lit "\nSeverity: ", .severityVar,
    .lit "\nConstraints:\n", .constraintsVar, .lit "\nIssue content:\n", .issueContent ]

/-- The `required_stages` list of `PolicyGateComponent._load_prompt_templates`. -/
def required_stages : List String := ["triage", "plan", "prioritize", "implement"]

/-- Modelled from the spec: the template table built by
`PolicyGateComponent._load_prompt_templates`.  Loading is fail-fast, so a constructed
gate holds a valid template for each of the four required stages. -/
def prompt_templates : List (String × List TChunk) :=
  required_stages.map (fun stage => (stage, mkTemplate stage))

/-- Embedding of `PolicyGateComponent._build_constraint_text`.  Every entry of the
stage-constraints table carries the three keys the Python code tests for, so all
three lines are always produced. -/
def build_constraint_text (constraints : StageConfig) : String :=
  String.intercalate "\n"
    [ "SCOPE LIMITS: " ++ String.intercalate ", " constraints.scope_limits,
      "OUTPUT FORMAT: " ++ constraints.output_format,
      "MAX RESPONSE LENGTH: " ++ toString constraints.max_response_length ++ " characters" ]

/-- Embedding of `PolicyGateComponent._construct_constrained_prompt`.  The
`Except.error` values model the `TemplateLoadError` raised for a missing template and
the `KeyError` a direct table index would raise (both dead for validated stages). -/
def construct_constrained_prompt (context : StageContext) : Except String String :=
  match prompt_templates.lookup context.current_stage with
  | none => Except.error ("No prompt template found for stage: " ++ context.current_stage)
  | some template =>
    match stage_constraints.lookup context.current_stage with
    | none => Except.error ("KeyError: " ++ context.current_stage)
    | some constraints =>
      Except.ok (format_template template context (build_constraint_text constraints))

/-- Embedding of the `try` body of `PolicyGateComponent.evaluate_stage_transition`
(lines 47 to 108): the rule chain in source order, each early `return` as an
`Except.ok`, each escaping exception as an `Except.error`. -/
def evaluate_stage_transition_body (context : StageContext) : Except String PolicyDecisionModel :=
  if !(is_valid_stage context.current_stage) then
    Except.ok
      { decision := "block"
        reason := "Invalid stage: " ++ context.current_stage
        constraints := [("valid_stages", CVal.strList (stage_constraints.map Prod.fst))] }
  else if !(is_request_type_allowed context.request_type context.current_stage) then
    Except.ok
      { decision := "block"
        reason := "Request type \x27" ++ context.request_type ++
                  "\x27 not allowed for stage \x27" ++ context.current_stage ++ "\x27"
        constraints := [("allowed_request_types",
                         CVal.strList (get_allowed_request_types context.current_stage))] }
  else if !(is_source_allowed context.source context.current_stage) then
    Except.ok
      { decision := "review_required"
        reason := "Source \x27" ++ context.source ++ "\x27 requires review for stage \x27" ++
                  context.current_stage ++ "\x27"
        constraints := [("source_policy", CVal.str "monitor_sources_require_review")] }
  else
    let content_check := evaluate_content_appropriateness context
    if content_check.decision ≠ "allow" then
      Except.ok
        { decision := content_check.decision
          reason := content_check.reason
          constraints := content_check.constraints }
    else
      let stage_check := evaluate_stage_constraints context
      if stage_check.decision ≠ "allow" then
        Except.ok
          { decision := stage_check.decision
            reason := stage_check.reason
            constraints := stage_check.constraints }
      else
        match construct_constrained_prompt context with
        | Except.error e => Except.error e
        | Except.ok constructed_prompt =>
          match stage_constraints.lookup context.current_stage with
          | none => Except.error ("KeyError: " ++ context.current_stage)
          | some stage_cfg =>
            Except.ok
              { decision := "allow"
                reason := "All policy checks passed for " ++ context.current_stage ++ " stage"
                constructed_prompt := some constructed_prompt
                constraints := [("stage", CVal.str context.current_stage),
                                ("request_type", CVal.str context.request_type),
                                ("source", CVal.str context.source),
                                ("scope_limits", CVal.strList stage_cfg.scope_limits)] }

/-- Embedding of `PolicyGateComponent.evaluate_stage_transition` including its
`except` handler, which converts any escaping exception into a `block` decision. -/
def evaluate_stage_transition (context : StageContext) : PolicyDecisionModel :=
  match evaluate_stage_transition_body context with
  | Except.ok decision => decision
  | Except.error e =>
    { decision := "block"
      reason := "Policy evaluation error: " ++ e
      constraints := [("error", CVal.str "policy_evaluation_failed")] }

/-- The `restricted_paths` list of `PolicyGateComponent.evaluate_implementation_changes`. -/
def restricted_paths : List String :=
  [".github/workflows/", "app/policy_gate.py", "requirements.txt"]

/-- Embedding of `PolicyGateComponent.evaluate_implementation_changes`.  The unused
`trace_id` argument is kept for signature fidelity (the Python code only logs it).
Python dict truthiness makes an empty `test_results` dict skip the test check, and
`dict.get` defaults are mirrored by `Option.getD`. -/
def evaluate_implementation_changes (context : ChangeContext) (trace_id : String) :
    PolicyDecisionModel :=
  if context.changed_files.length > 20 then
    { decision := "review_required"
      reason := "Too many files changed (" ++ toString context.changed_files.length ++
                "), requires human review"
      constraints := [("max_files_changed", CVal.nat 20)] }
  else
    match context.changed_files.find?
        (fun file_path => restricted_paths.any (fun restricted => pyStartswith file_path restricted)) with
    | some file_path =>
      { decision := "review_required"
        reason := "Changes to restricted path \x27" ++ file_path ++ "\x27 require human review"
        constraints := [("restricted_paths", CVal.strList restricted_paths)] }
    | none =>
      if context.ci_status ≠ "success" then
        { decision := "block"
          reason := "CI status is \x27" ++ context.ci_status ++
                    "\x27, must be \x27success\x27 to proceed"
          constraints := [("required_ci_status", CVal.str "success")] }
      else if (match context.test_results with
               | some test_results =>
                 !test_results.isEmpty && !((test_results.lookup "all_passed").getD false)
               | none => false) then
        { decision := "block"
          reason := "Not all tests passed, cannot proceed with deployment"
          constraints := [("required_test_status", CVal.str "all_passed")] }
      else
        { decision := "allow"
          reason := "Implementation changes meet all policy requirements"
          constraints := [("files_changed", CVal.nat context.changed_files.length),
                          ("ci_status", CVal.str context.ci_status),
                          ("tests_passed", CVal.bool
                            (match context.test_results with
                             | some test_results =>
                               if !test_results.isEmpty then
                                 (test_results.lookup "all_passed").getD true
                               else true
                             | none => true))] }

/-- Embedding of the `Stage` enum of `app/state_management.py`. -/
inductive Stage where
  | triage
  | plan
  | prioritize
  | awaitingImplementationApproval
  | implement
  | prOpened
  | awaitingDeployApproval
  | blocked
  | done
deriving DecidableEq, Repr

/-- The label string each `Stage` enum member carries as its `value`. -/
def Stage.value : Stage → String
  | .triage => "stage:triage"
  | .plan => "stage:plan"
  | .prioritize => "stage:prioritize"
  | .awaitingImplementationApproval => "stage:awaiting-implementation-approval"
  | .implement => "stage:implement"
  | .prOpened => "stage:pr-opened"
  | .awaitingDeployApproval => "stage:awaiting-deploy-approval"
  | .blocked => "stage:blocked"
  | .done => "stage:done"

/-- The members of the `Stage` enum in declaration order, as Python iterates them. -/
def allStages : List Stage :=
  [.triage, .plan, .prioritize, .awaitingImplementationApproval, .implement,
   .prOpened, .awaitingDeployApproval, .blocked, .done]

/-- Embedding of the `RequestType` enum of `app/state_management.py`. -/
inductive RequestType where
  | bug
  | feature
  | investigate
deriving DecidableEq, Repr

/-- The label string each `RequestType` member carries as its `value`. -/
def RequestType.value : RequestType → String
  | .bug => "request:bug"
  | .feature => "request:feature"
  | .investigate => "request:investigate"

/-- Embedding of the `Source` enum of `app/state_management.py`. -/
inductive Source where
  | user
  | monitor
deriving DecidableEq, Repr

/-- The label string each `Source` member carries as its `value`. -/
def Source.value : Source → String
  | .user => "source:user"
  | .monitor => "source:monitor"

/-- Embedding of `IssueStateManager.VALID_TRANSITIONS`: the transition table as
written, with no entry for `done`. -/
def VALID_TRANSITIONS : List (Stage × List Stage) :=
  [ (.triage, [.plan, .blocked]),
    (.plan, [.prioritize, .blocked]),
    (.prioritize, [.awaitingImplementationApproval]),
    (.awaitingImplementationApproval, [.implement, .blocked]),
    (.implement, [.prOpened, .blocked]),
    (.prOpened, [.awaitingDeployApproval]),
    (.awaitingDeployApproval, [.done, .blocked]),
    (.blocked, [.triage]) ]

/-- Embedding of `IssueStateManager._get_current_stage`: the first label (in label
order) equal to the `value` of some `Stage` member (in enum order) determines the
current stage; `none` when no label matches. -/
def get_current_stage (labels : List String) : Option Stage :=
  labels.findSome? (fun label => allStages.find? (fun stage => label == stage.value))

/-- Embedding of `IssueStateManager.transition_issue_state`, with the issue state
reduced to its label list.  `Except.error` models a raised `StateTransitionError`
(the GitHub label write and audit comment never happen on that path);
`Except.ok` carries the replacement label list passed to `set_issue_labels`. -/
def transition_issue_state (labels : List String) (new_stage : Stage) :
    Except String (List String) :=
  match get_current_stage labels with
  | some current_stage =>
    if !(((VALID_TRANSITIONS.lookup current_stage).getD []).contains new_stage) then
      Except.error ("Invalid transition from " ++ current_stage.value ++ " to " ++ new_stage.value)
    else
      Except.ok ((labels.filter (fun label => !(pyStartswith label "stage:"))) ++ [new_stage.value])
  | none =>
      Except.ok ((labels.filter (fun label => !(pyStartswith label "stage:"))) ++ [new_stage.value])

/-- Embedding of `IssueStateManager.create_issue_with_initial_state`, reduced to the
data it sends to the Issue Store: the enhanced description and the initial labels. -/
def create_issue_with_initial_state (title description : String)
    (request_type : RequestType) (source : Source)
    (severity priority : Option String) : String × List String :=
  let enhanced_description :=
    if !(pyFalsy severity) && request_type == RequestType.bug then
      "**Severity**: " ++ severity.getD "" ++ "\n\n" ++ description
    else if !(pyFalsy priority) && request_type == RequestType.feature then
      "**Priority**: " ++ priority.getD "" ++ "\n\n" ++ description
    else description
  let initial_labels := [request_type.value, source.value, Stage.triage.value]
  (enhanced_description, initial_labels)

/-- The part of a rendered modelled template strictly before the interpolated trace
id; it depends only on the stage name, request type and source. -/
def tpl_pre (stage_name request_type source : String) : String :=
  "You are acting in the " ++ stage_name ++ " stage.\nRequest type: " ++ request_type ++
    "\nSource: " ++ source ++ "\nTrace ID: "

/-- The part of a rendered modelled template strictly after the interpolated trace
id; it depends only on priority, severity, the constraint text and the content. -/
def tpl_post (priority severity : Option String) (constraint_text issue_content : String) : String :=
  "\nPriority: " ++ pyOr priority "not specified" ++ "\nSeverity: " ++
    pyOr severity "not specified" ++ "\nConstraints:\n" ++ constraint_text ++
    "\nIssue content:\n" ++ issue_content

/-!
### Lemmas about the state machine
-/

/-- Every stage label value carries the `stage:` prefix. -/
theorem stage_value_startswith (st : Stage) : pyStartswith st.value "stage:" = true := by
  cases st <;> decide

/-- No request-type label value carries the `stage:` prefix. -/
theorem request_value_not_stage (rt : RequestType) : pyStartswith rt.value "stage:" = false := by
  cases rt <;> decide

/-- No source label value carries the `stage:` prefix. -/
theorem source_value_not_stage (sr : Source) : pyStartswith sr.value "stage:" = false := by
  cases sr <;> decide

/-- Stage label values are pairwise distinct. -/
theorem stage_value_inj {s t : Stage} (h : s.value = t.value) : s = t := by
  cases s <;> cases t <;> first | rfl | exact absurd h (by decide)

/-- Scanning the enum members for the value of a given stage finds that stage. -/
theorem find_value_self (st : Stage) :
    allStages.find? (fun x => st.value == x.value) = some st := by
  cases st <;> rfl

/-- A successful enum scan means the label equals the found stage value. -/
theorem find_eq_of_match {l : String} {st : Stage}
    (h : allStages.find? (fun x => l == x.value) = some st) : l = st.value := by
  have hp := List.find?_some h
  exact eq_of_beq hp

/-- When the label list contains the value of `fromStage` and every `stage:`-prefixed
label equals that value, the extracted current stage is `fromStage`. -/
theorem get_current_stage_of_unique {labels : List String} {fromStage : Stage}
    (h1 : fromStage.value ∈ labels)
    (h2 : ∀ l ∈ labels, pyStartswith l "stage:" = true → l = fromStage.value) :
    get_current_stage labels = some fromStage := by
  induction labels with
  | nil => cases h1
  | cons l ls ih =>
    simp only [get_current_stage, List.findSome?_cons]
    cases hf : allStages.find? (fun x => l == x.value) with
    | some st =>
      have hl : l = st.value := find_eq_of_match hf
      have hst : pyStartswith l "stage:" = true := by rw [hl]; exact stage_value_startswith st
      have hlf : l = fromStage.value := h2 l (List.mem_cons_self l ls) hst
      have : st = fromStage := stage_value_inj (by rw [← hl, hlf])
      rw [this]
    | none =>
      have hne : l ≠ fromStage.value := by
        intro he
        rw [he, find_value_self fromStage] at hf
        cases hf
      have h1x : fromStage.value ∈ ls := by
        cases List.mem_cons.mp h1 with
        | inl h => exact absurd h.symm hne
        | inr h => exact h
      have h2x : ∀ x ∈ ls, pyStartswith x "stage:" = true → x = fromStage.value :=
        fun x hx => h2 x (List.mem_cons_of_mem l hx)
      exact ih h1x h2x

/-- Filter facts about the replacement label list
`labels.filter (not startswith stage) ++ [new stage value]`. -/
theorem append_stage_filter (L : List String) (v : Stage) :
    ((L.filter (fun l => !(pyStartswith l "stage:"))) ++ [v.value]).filter
        (fun l => pyStartswith l "stage:") = [v.value]
    ∧ ((L.filter (fun l => !(pyStartswith l "stage:"))) ++ [v.value]).filter
        (fun l => !(pyStartswith l "stage:")) = L.filter (fun l => !(pyStartswith l "stage:")) := by
  constructor
  · rw [List.filter_append]
    have h1 : (L.filter (fun l => !(pyStartswith l "stage:"))).filter
        (fun l => pyStartswith l "stage:") = [] := by
      rw [List.filter_eq_nil_iff]
      intro a ha
      have h2 := (List.mem_filter.mp ha).2
      simp only [Bool.not_eq_true'] at h2
      simp [h2]
    rw [h1, List.nil_append]
    simp [List.filter, stage_value_startswith v]
  · rw [List.filter_append]
    have h2 : (L.filter (fun l => !(pyStartswith l "stage:"))).filter
        (fun l => !(pyStartswith l "stage:")) = L.filter (fun l => !(pyStartswith l "stage:")) := by
      rw [List.filter_eq_self]
      intro a ha
      exact (List.mem_filter.mp ha).2
    rw [h2]
    simp [List.filter, stage_value_startswith v]

/-- For stage lists, the boolean `contains` agrees with membership. -/
theorem stage_contains_iff (l : List Stage) (x : Stage) : l.contains x = true ↔ x ∈ l :=
  List.elem_iff

/-- A false `contains` makes the negated transition guard true. -/
theorem not_contains_cond_false {l : List Stage} {x : Stage} (h : l.contains x = false) :
    (!(l.contains x)) = true := by
  rw [h]
  rfl

/-- A true `contains` refutes the negated transition guard. -/
theorem contains_cond_neg {l : List Stage} {x : Stage} (h : l.contains x = true) :
    ¬((!(l.contains x)) = true) := by
  rw [h]
  decide

/-- C3: Transition graph fidelity with atomic failure.  For an issue whose labels
carry exactly the stage label of `fromStage`, `transition_issue_state` succeeds iff
the target is in `VALID_TRANSITIONS[fromStage]`; every other target raises the
illegal-transition `StateTransitionError` (modelled by `Except.error`, on which no
label write happens); `done` has no outgoing transitions and the only transition out
of `blocked` is to `triage`. -/
theorem transition_graph_fidelity (labels : List String) (fromStage toStage : Stage)
    (h1 : fromStage.value ∈ labels)
    (h2 : ∀ l ∈ labels, pyStartswith l "stage:" = true → l = fromStage.value) :
    ((∃ new_labels, transition_issue_state labels toStage = Except.ok new_labels) ↔
        toStage ∈ (VALID_TRANSITIONS.lookup fromStage).getD [])
    ∧ (toStage ∉ (VALID_TRANSITIONS.lookup fromStage).getD [] →
        transition_issue_state labels toStage =
          Except.error ("Invalid transition from " ++ fromStage.value ++ " to " ++ toStage.value))
    ∧ (VALID_TRANSITIONS.lookup Stage.done).getD [] = []
    ∧ (VALID_TRANSITIONS.lookup Stage.blocked).getD [] = [Stage.triage] := by
  have hcur := get_current_stage_of_unique h1 h2
  simp only [transition_issue_state, hcur]
  refine ⟨⟨?_, ?_⟩, ?_, rfl, rfl⟩
  · rintro ⟨new_labels, hnl⟩
    by_cases hm : ((VALID_TRANSITIONS.lookup fromStage).getD []).contains toStage = true
    · exact (stage_contains_iff _ _).mp hm
    · rw [if_pos (not_contains_cond_false (Bool.eq_false_iff.mpr hm))] at hnl
      cases hnl
  · intro hmem
    have hm : ((VALID_TRANSITIONS.lookup fromStage).getD []).contains toStage = true :=
      (stage_contains_iff _ _).mpr hmem
    exact ⟨_, by rw [if_neg (contains_cond_neg hm)]⟩
  · intro hmem
    have hm : ((VALID_TRANSITIONS.lookup fromStage).getD []).contains toStage = false := by
      by_cases hc : ((VALID_TRANSITIONS.lookup fromStage).getD []).contains toStage = true
      · exact absurd ((stage_contains_iff _ _).mp hc) hmem
      · exact Bool.eq_false_iff.mpr hc
    rw [if_pos (not_contains_cond_false hm)]

/-- C3 witness: concrete instance at a triaged issue and target `plan`. -/
theorem transition_graph_fidelity_witness :
    ((∃ new_labels, transition_issue_state ["source:user", "stage:triage"] Stage.plan
        = Except.ok new_labels) ↔
      Stage.plan ∈ (VALID_TRANSITIONS.lookup Stage.triage).getD [])
    ∧ (Stage.plan ∉ (VALID_TRANSITIONS.lookup Stage.triage).getD [] →
        transition_issue_state ["source:user", "stage:triage"] Stage.plan =
          Except.error ("Invalid transition from " ++ Stage.triage.value ++ " to " ++ Stage.plan.value))
    ∧ (VALID_TRANSITIONS.lookup Stage.done).getD [] = []
    ∧ (VALID_TRANSITIONS.lookup Stage.blocked).getD [] = [Stage.triage] :=
  transition_graph_fidelity ["source:user", "stage:triage"] Stage.triage Stage.plan
    (by decide) (by decide)

/-- C4 counterexample: with zero stage labels present, `transition_issue_state` does
not raise; it proceeds unvalidated and applies the new stage label. -/
theorem label_integrity_counterexample :
    get_current_stage ["request:bug", "source:user"] = none
    ∧ (["request:bug", "source:user"].filter (fun l => pyStartswith l "stage:") = [])
    ∧ transition_issue_state ["request:bug", "source:user"] Stage.plan =
        Except.ok ["request:bug", "source:user", "stage:plan"] :=
  ⟨rfl, rfl, rfl⟩

/-- C4 amended: when zero stage labels are found the transition proceeds without any
error and applies the new stage label; when several stage labels are present, the
first matching label in label order is silently used as the current stage. -/
theorem label_integrity_amended :
    (∀ (labels : List String) (new_stage : Stage),
        get_current_stage labels = none →
        transition_issue_state labels new_stage =
          Except.ok ((labels.filter (fun label => !(pyStartswith label "stage:"))) ++ [new_stage.value]))
    ∧ (∀ (s1 s2 : Stage) (rest : List String),
        get_current_stage (s1.value :: s2.value :: rest) = some s1) := by
  constructor
  · intro labels new_stage h
    unfold transition_issue_state
    rw [h]
  · intro s1 s2 rest
    simp only [get_current_stage, List.findSome?_cons, find_value_self s1]

/-- C4 amended witness: a label list with no stage label transitions without error,
and with two stage labels the first is picked. -/
theorem label_integrity_amended_witness :
    transition_issue_state ["request:bug"] Stage.triage =
      Except.ok ((["request:bug"].filter (fun label => !(pyStartswith label "stage:"))) ++
        [Stage.triage.value])
    ∧ get_current_stage ["stage:done", "stage:triage"] = some Stage.done :=
  ⟨label_integrity_amended.1 ["request:bug"] Stage.triage (by rfl),
   label_integrity_amended.2 Stage.done Stage.triage []⟩

/-- C6: after any successful `transition_issue_state` the label list carries exactly
one `stage:`-prefixed label (the new stage value) and all other labels are unchanged;
the constructor path `create_issue_with_initial_state` also yields exactly one stage
label, `stage:triage`. -/
theorem single_stage_label_invariant :
    (∀ (labels : List String) (new_stage : Stage) (new_labels : List String),
        transition_issue_state labels new_stage = Except.ok new_labels →
        new_labels.filter (fun label => pyStartswith label "stage:") = [new_stage.value]
        ∧ new_labels.countP (fun label => pyStartswith label "stage:") = 1
        ∧ new_labels.filter (fun label => !(pyStartswith label "stage:"))
            = labels.filter (fun label => !(pyStartswith label "stage:")))
    ∧ (∀ (title description : String) (request_type : RequestType) (source : Source)
          (severity priority : Option String),
        ((create_issue_with_initial_state title description request_type source
            severity priority).2.filter (fun label => pyStartswith label "stage:"))
          = [Stage.triage.value]
        ∧ (create_issue_with_initial_state title description request_type source
            severity priority).2.countP (fun label => pyStartswith label "stage:") = 1) := by
  constructor
  · intro labels new_stage new_labels h
    have hmain : new_labels =
        (labels.filter (fun label => !(pyStartswith label "stage:"))) ++ [new_stage.value] := by
      cases hcs : get_current_stage labels with
      | some cs =>
        simp only [transition_issue_state, hcs] at h
        by_cases hc : (((VALID_TRANSITIONS.lookup cs).getD []).contains new_stage) = true
        · rw [if_neg (contains_cond_neg hc)] at h
          exact (Except.ok.inj h).symm
        · rw [if_pos (not_contains_cond_false (Bool.eq_false_iff.mpr hc))] at h
          cases h
      | none =>
        simp only [transition_issue_state, hcs] at h
        exact (Except.ok.inj h).symm
    subst hmain
    obtain ⟨hstage, hrest⟩ := append_stage_filter labels new_stage
    refine ⟨hstage, ?_, hrest⟩
    rw [List.countP_eq_length_filter, hstage]
    rfl
  · intro title description request_type source severity priority
    cases request_type <;> cases source <;> exact ⟨rfl, rfl⟩

/-- C6 witness: concrete successful transition and creation. -/
theorem single_stage_label_invariant_witness :
    (["request:bug", "stage:plan"].filter (fun label => pyStartswith label "stage:")
        = [Stage.plan.value]
      ∧ ["request:bug", "stage:plan"].countP (fun label => pyStartswith label "stage:") = 1
      ∧ ["request:bug", "stage:plan"].filter (fun label => !(pyStartswith label "stage:"))
          = ["stage:triage", "request:bug"].filter (fun label => !(pyStartswith label "stage:")))
    ∧ ((create_issue_with_initial_state "t" "d" RequestType.bug Source.user
          (some "high") none).2.filter (fun label => pyStartswith label "stage:")
        = [Stage.triage.value]
      ∧ (create_issue_with_initial_state "t" "d" RequestType.bug Source.user
          (some "high") none).2.countP (fun label => pyStartswith label "stage:") = 1) :=
  ⟨single_stage_label_invariant.1 ["stage:triage", "request:bug"] Stage.plan
      ["request:bug", "stage:plan"] (by rfl),
   single_stage_label_invariant.2 "t" "d" RequestType.bug Source.user (some "high") none⟩

/-!
### Lemmas about the Policy Gate
-/

/-- A string append with a nonempty left part is nonempty. -/
theorem str_append_left_ne_empty (a b : String) (h : a ≠ "") : a ++ b ≠ "" := by
  intro hc
  apply h
  apply String.ext
  have h3 := congrArg String.data hc
  have h4 : ("" : String).data = [] := rfl
  rw [String.data_append, h4] at h3
  exact (List.append_eq_nil.mp h3).1

/-- The content check yields either the literal allow record, or a blocking or
review record with nonempty reason and constraints. -/
theorem content_check_shape (context : StageContext) :
    evaluate_content_appropriateness context =
        { decision := "allow", reason := "Content is appropriate", constraints := [] }
    ∨ (∃ d r c, evaluate_content_appropriateness context = { decision := d, reason := r, constraints := c }
        ∧ (d = "block" ∨ d = "review_required") ∧ r ≠ "" ∧ c ≠ []) := by
  cases hf : inappropriate_patterns.find? (fun pattern => pyContains (pyLower context.issue_content) pattern) with
  | some pattern =>
    have he : evaluate_content_appropriateness context =
        { decision := "block",
          reason := "Content contains inappropriate pattern: \x27" ++ pattern ++ "\x27",
          constraints := [("blocked_patterns", CVal.strList inappropriate_patterns)] } := by
      simp only [evaluate_content_appropriateness, hf]
    refine Or.inr ⟨_, _, _, he, Or.inl rfl, ?_, by simp⟩
    apply str_append_left_ne_empty
    apply str_append_left_ne_empty
    decide
  | none =>
    by_cases hl : (pyStrip context.issue_content).length < 10
    · have he : evaluate_content_appropriateness context =
          { decision := "block",
            reason := "Issue content too short, minimum 10 characters required",
            constraints := [("min_content_length", CVal.nat 10)] } := by
        simp only [evaluate_content_appropriateness, hf, hl, if_true]
      exact Or.inr ⟨_, _, _, he, Or.inl rfl, by decide, by simp⟩
    · by_cases hq : pyCount context.issue_content '!' > 10 ∨ pyCount context.issue_content '?' > 10
      · have he : evaluate_content_appropriateness context =
            { decision := "review_required",
              reason := "Content appears spam-like, requires human review",
              constraints := [("spam_indicators", CVal.str "excessive_punctuation")] } := by
          simp only [evaluate_content_appropriateness, hf, hl, hq, if_true, if_false]
        exact Or.inr ⟨_, _, _, he, Or.inr rfl, by decide, by simp⟩
      · have he : evaluate_content_appropriateness context =
            { decision := "allow", reason := "Content is appropriate", constraints := [] } := by
          simp only [evaluate_content_appropriateness, hf, hl, hq, if_false]
        exact Or.inl he

/-- The stage-constraints check yields either the literal allow record or a block
record with nonempty reason and constraints. -/
theorem stage_check_shape (context : StageContext) :
    evaluate_stage_constraints context =
        { decision := "allow", reason := "Stage constraints satisfied", constraints := [] }
    ∨ (∃ r c, evaluate_stage_constraints context = { decision := "block", reason := r, constraints := c }
        ∧ r ≠ "" ∧ c ≠ []) := by
  by_cases h1 : (context.current_stage == "prioritize" && pyFalsy context.priority) = true
  · have he : evaluate_stage_constraints context =
        { decision := "block",
          reason := "Priority information required for prioritization stage",
          constraints := [("required_fields", CVal.strList ["priority"])] } := by
      simp only [evaluate_stage_constraints]
      rw [if_pos h1]
    exact Or.inr ⟨_, _, he, by decide, by simp⟩
  · by_cases h2 : (context.current_stage == "triage" && context.request_type == "bug"
        && pyFalsy context.severity) = true
    · have he : evaluate_stage_constraints context =
          { decision := "block",
            reason := "Severity information required for bug triage",
            constraints := [("required_fields", CVal.strList ["severity"])] } := by
        simp only [evaluate_stage_constraints]
        rw [if_neg h1, if_pos h2]
      exact Or.inr ⟨_, _, he, by decide, by simp⟩
    · by_cases h3 : (!((required_artifacts_of context.current_stage).filter
          (fun artifact => !(context.workflow_artifacts.contains artifact))).isEmpty) = true
      · have he : evaluate_stage_constraints context =
            { decision := "block",
              reason := "Missing required artifacts: " ++ String.intercalate ", "
                ((required_artifacts_of context.current_stage).filter
                  (fun artifact => !(context.workflow_artifacts.contains artifact))),
              constraints := [("required_artifacts",
                  CVal.strList (required_artifacts_of context.current_stage)),
                ("missing", CVal.strList ((required_artifacts_of context.current_stage).filter
                  (fun artifact => !(context.workflow_artifacts.contains artifact))))] } := by
          simp only [evaluate_stage_constraints]
          rw [if_neg h1, if_neg h2, if_pos h3]
        refine Or.inr ⟨_, _, he, ?_, by simp⟩
        exact str_append_left_ne_empty "Missing required artifacts: " _ (by decide)
      · have he : evaluate_stage_constraints context =
            { decision := "allow", reason := "Stage constraints satisfied", constraints := [] } := by
          simp only [evaluate_stage_constraints]
          rw [if_neg h1, if_neg h2, if_neg h3]
        exact Or.inl he

/-- A stage accepted by `_is_valid_stage` is one of the four configured stages. -/
theorem valid_stage_names {s : String} (hv : is_valid_stage s = true) :
    s = "triage" ∨ s = "plan" ∨ s = "prioritize" ∨ s = "implement" := by
  by_cases h1 : s = "triage"
  · exact Or.inl h1
  by_cases h2 : s = "plan"
  · exact Or.inr (Or.inl h2)
  by_cases h3 : s = "prioritize"
  · exact Or.inr (Or.inr (Or.inl h3))
  by_cases h4 : s = "implement"
  · exact Or.inr (Or.inr (Or.inr h4))
  exfalso
  have b1 : (s == "triage") = false := beq_eq_false_iff_ne.mpr h1
  have b2 : (s == "plan") = false := beq_eq_false_iff_ne.mpr h2
  have b3 : (s == "prioritize") = false := beq_eq_false_iff_ne.mpr h3
  have b4 : (s == "implement") = false := beq_eq_false_iff_ne.mpr h4
  simp [is_valid_stage, stage_constraints, List.lookup, b1, b2, b3, b4] at hv

/-- Every stage the constraint table accepts also has a loaded prompt template
(fail-fast loading guarantees the two key sets agree). -/
theorem prompt_template_of_valid {s : String} (hv : is_valid_stage s = true) :
    prompt_templates.lookup s = some (mkTemplate s) := by
  rcases valid_stage_names hv with h | h | h | h <;> subst h <;> rfl

/-- Every stage the constraint table accepts has a config entry. -/
theorem stage_config_of_valid {s : String} (hv : is_valid_stage s = true) :
    ∃ cfg, stage_constraints.lookup s = some cfg := by
  exact Option.isSome_iff_exists.mp hv

/-- Rendering a modelled template splits the prompt around the interpolated trace
id into parts that do not depend on it. -/
theorem format_mkTemplate (stage_name : String) (context : StageContext)
    (constraint_text : String) :
    format_template (mkTemplate stage_name) context constraint_text =
      tpl_pre stage_name context.request_type context.source ++ context.trace_id ++
        tpl_post context.priority context.severity constraint_text context.issue_content := by
  apply String.ext
  simp [format_template, mkTemplate, render_chunk, tpl_pre, tpl_post, String.data_append]

/-- Full description of the gate outcome when every check passes. -/
theorem eval_master_allow (i : Int) (s rt sr : String) (p sv : Option String)
    (t co : String) (ar : List String) (cfg : StageConfig)
    (hcfg : stage_constraints.lookup s = some cfg)
    (htpl : prompt_templates.lookup s = some (mkTemplate s))
    (hv : is_valid_stage s = true)
    (hr : is_request_type_allowed rt s = true)
    (hsr : is_source_allowed sr s = true)
    (hcc : (evaluate_content_appropriateness ⟨i, s, rt, sr, p, sv, t, co, ar⟩).decision = "allow")
    (hsc : (evaluate_stage_constraints ⟨i, s, rt, sr, p, sv, t, co, ar⟩).decision = "allow") :
    evaluate_stage_transition ⟨i, s, rt, sr, p, sv, t, co, ar⟩ =
      { decision := "allow"
        reason := "All policy checks passed for " ++ s ++ " stage"
        constructed_prompt := some (tpl_pre s rt sr ++ t ++
          tpl_post p sv (build_constraint_text cfg) co)
        constraints := [("stage", CVal.str s), ("request_type", CVal.str rt),
                        ("source", CVal.str sr),
                        ("scope_limits", CVal.strList cfg.scope_limits)] } := by
  have hfmt := format_mkTemplate s ⟨i, s, rt, sr, p, sv, t, co, ar⟩ (build_constraint_text cfg)
  simp [evaluate_stage_transition, evaluate_stage_transition_body,
    construct_constrained_prompt, hv, hr, hsr, hcc, hsc, htpl, hcfg, hfmt]

/-- Master outcome lemma: for fixed policy-relevant inputs, the gate produces one
fixed decision, reason and constraint list whatever the issue id and trace id are,
and the prompt, when present, is a fixed pair of strings around the trace id.  The
decision is one of the three closed values, the prompt is present exactly on allow,
and reason and constraints are never empty. -/
theorem eval_master (s rt sr : String) (p sv : Option String) (co : String)
    (ar : List String) :
    ∃ (d r : String) (cons : List (String × CVal)) (pp : Option (String × String)),
      (∀ (i : Int) (t : String),
          evaluate_stage_transition ⟨i, s, rt, sr, p, sv, t, co, ar⟩ =
            { decision := d, reason := r,
              constructed_prompt := pp.map (fun q => q.1 ++ t ++ q.2),
              constraints := cons })
      ∧ (d = "allow" ∨ d = "review_required" ∨ d = "block")
      ∧ (pp.isSome = true ↔ d = "allow")
      ∧ r ≠ "" ∧ cons ≠ [] := by
  by_cases hv : is_valid_stage s = true
  case neg =>
    have hvf : is_valid_stage s = false := Bool.eq_false_iff.mpr hv
    refine ⟨"block", "Invalid stage: " ++ s,
      [("valid_stages", CVal.strList (stage_constraints.map Prod.fst))], none,
      fun i t => ?_, Or.inr (Or.inr rfl), by simp, ?_, by simp⟩
    · simp [evaluate_stage_transition, evaluate_stage_transition_body, hvf]
    · exact str_append_left_ne_empty "Invalid stage: " s (by decide)
  case pos =>
  by_cases hr : is_request_type_allowed rt s = true
  case neg =>
    have hrf : is_request_type_allowed rt s = false := Bool.eq_false_iff.mpr hr
    refine ⟨"block",
      "Request type \x27" ++ rt ++ "\x27 not allowed for stage \x27" ++ s ++ "\x27",
      [("allowed_request_types", CVal.strList (get_allowed_request_types s))], none,
      fun i t => ?_, Or.inr (Or.inr rfl), by simp, ?_, by simp⟩
    · simp [evaluate_stage_transition, evaluate_stage_transition_body, hv, hrf]
    · apply str_append_left_ne_empty
      apply str_append_left_ne_empty
      apply str_append_left_ne_empty
      apply str_append_left_ne_empty
      decide
  case pos =>
  by_cases hsr : is_source_allowed sr s = true
  case neg =>
    have hsf : is_source_allowed sr s = false := Bool.eq_false_iff.mpr hsr
    refine ⟨"review_required",
      "Source \x27" ++ sr ++ "\x27 requires review for stage \x27" ++ s ++ "\x27",
      [("source_policy", CVal.str "monitor_sources_require_review")], none,
      fun i t => ?_, Or.inr (Or.inl rfl), by simp, ?_, by simp⟩
    · simp [evaluate_stage_transition, evaluate_stage_transition_body, hv, hr, hsf]
    · apply str_append_left_ne_empty
      apply str_append_left_ne_empty
      apply str_append_left_ne_empty
      apply str_append_left_ne_empty
      decide
  case pos =>
  rcases content_check_shape ⟨0, s, rt, sr, p, sv, "", co, ar⟩ with hca | ⟨d0, r0, c0, hce, hd0, hr0, hc0⟩
  case inr =>
    have hdne : d0 ≠ "allow" := by
      cases hd0 with
      | inl h => rw [h]; decide
      | inr h => rw [h]; decide
    refine ⟨d0, r0, c0, none, fun i t => ?_, ?_, by simp [hdne], hr0, hc0⟩
    · have hce2 : evaluate_content_appropriateness ⟨i, s, rt, sr, p, sv, t, co, ar⟩ =
          { decision := d0, reason := r0, constraints := c0 } := hce
      simp [evaluate_stage_transition, evaluate_stage_transition_body, hv, hr, hsr,
        hce2, hdne]
    · cases hd0 with
      | inl h => exact Or.inr (Or.inr h)
      | inr h => exact Or.inr (Or.inl h)
  case inl =>
  have hcc : (evaluate_content_appropriateness ⟨0, s, rt, sr, p, sv, "", co, ar⟩).decision
      = "allow" := by rw [hca]
  rcases stage_check_shape ⟨0, s, rt, sr, p, sv, "", co, ar⟩ with hsa | ⟨r0, c0, hse, hr0, hc0⟩
  case inr =>
    refine ⟨"block", r0, c0, none, fun i t => ?_, Or.inr (Or.inr rfl), by simp, hr0, hc0⟩
    have hse2 : evaluate_stage_constraints ⟨i, s, rt, sr, p, sv, t, co, ar⟩ =
        { decision := "block", reason := r0, constraints := c0 } := hse
    have hcc2 : (evaluate_content_appropriateness ⟨i, s, rt, sr, p, sv, t, co, ar⟩).decision
        = "allow" := hcc
    simp [evaluate_stage_transition, evaluate_stage_transition_body, hv, hr, hsr,
      hcc2, hse2]
  case inl =>
  have hsc : (evaluate_stage_constraints ⟨0, s, rt, sr, p, sv, "", co, ar⟩).decision
      = "allow" := by rw [hsa]
  obtain ⟨cfg, hcfg⟩ := stage_config_of_valid hv
  have htpl := prompt_template_of_valid hv
  refine ⟨"allow", "All policy checks passed for " ++ s ++ " stage",
    [("stage", CVal.str s), ("request_type", CVal.str rt), ("source", CVal.str sr),
     ("scope_limits", CVal.strList cfg.scope_limits)],
    some (tpl_pre s rt sr, tpl_post p sv (build_constraint_text cfg) co),
    fun i t => ?_, Or.inl rfl, by simp, ?_, by simp⟩
  · rw [eval_master_allow i s rt sr p sv t co ar cfg hcfg htpl hv hr hsr hcc hsc]
    simp
  · exact str_append_left_ne_empty "All policy checks passed for " _ (by decide)

/-- For string lists, the boolean `contains` agrees with membership. -/
theorem strList_contains_iff (l : List String) (x : String) : l.contains x = true ↔ x ∈ l :=
  List.elem_iff

/-- The content check blocks with the found pattern when the denylist scan hits. -/
theorem content_block_of_find (context : StageContext) (pattern : String)
    (hf : inappropriate_patterns.find?
        (fun q => pyContains (pyLower context.issue_content) q) = some pattern) :
    evaluate_content_appropriateness context =
      { decision := "block",
        reason := "Content contains inappropriate pattern: \x27" ++ pattern ++ "\x27",
        constraints := [("blocked_patterns", CVal.strList inappropriate_patterns)] } := by
  simp only [evaluate_content_appropriateness, hf]

/-- When the first three checks pass and the content check does not allow, the gate
returns exactly the content-check result without a prompt. -/
theorem eval_content_stop (i : Int) (s rt sr : String) (p sv : Option String)
    (t co : String) (ar : List String) (d0 r0 : String) (c0 : List (String × CVal))
    (hv : is_valid_stage s = true) (hr : is_request_type_allowed rt s = true)
    (hsr : is_source_allowed sr s = true)
    (hce : evaluate_content_appropriateness ⟨i, s, rt, sr, p, sv, t, co, ar⟩ =
      { decision := d0, reason := r0, constraints := c0 })
    (hdne : d0 ≠ "allow") :
    evaluate_stage_transition ⟨i, s, rt, sr, p, sv, t, co, ar⟩ =
      { decision := d0, reason := r0, constructed_prompt := none, constraints := c0 } := by
  simp [evaluate_stage_transition, evaluate_stage_transition_body, hv, hr, hsr, hce, hdne]

/-- When only the stage-constraints check fails, the gate returns exactly its block
result without a prompt. -/
theorem eval_stage_stop (i : Int) (s rt sr : String) (p sv : Option String)
    (t co : String) (ar : List String) (r0 : String) (c0 : List (String × CVal))
    (hv : is_valid_stage s = true) (hr : is_request_type_allowed rt s = true)
    (hsr : is_source_allowed sr s = true)
    (hcc : (evaluate_content_appropriateness ⟨i, s, rt, sr, p, sv, t, co, ar⟩).decision = "allow")
    (hse : evaluate_stage_constraints ⟨i, s, rt, sr, p, sv, t, co, ar⟩ =
      { decision := "block", reason := r0, constraints := c0 }) :
    evaluate_stage_transition ⟨i, s, rt, sr, p, sv, t, co, ar⟩ =
      { decision := "block", reason := r0, constructed_prompt := none, constraints := c0 } := by
  simp [evaluate_stage_transition, evaluate_stage_transition_body, hv, hr, hsr, hcc, hse]

/-- A missing priority at the prioritize stage makes the stage-constraints check
block. -/
theorem stage_check_priority_block (context : StageContext)
    (h1 : context.current_stage = "prioritize") (h2 : pyFalsy context.priority = true) :
    evaluate_stage_constraints context =
      { decision := "block",
        reason := "Priority information required for prioritization stage",
        constraints := [("required_fields", CVal.strList ["priority"])] } := by
  simp only [evaluate_stage_constraints]
  rw [if_pos (by simp [h1, h2])]

/-- A missing severity for a bug at the triage stage makes the stage-constraints
check block. -/
theorem stage_check_severity_block (context : StageContext)
    (h1 : context.current_stage = "triage") (h2 : context.request_type = "bug")
    (h3 : pyFalsy context.severity = true) :
    evaluate_stage_constraints context =
      { decision := "block",
        reason := "Severity information required for bug triage",
        constraints := [("required_fields", CVal.strList ["severity"])] } := by
  simp only [evaluate_stage_constraints]
  rw [if_neg (by simp [h1]), if_pos (by simp [h1, h2, h3])]

/-- When the stage-constraints check allows, every required artifact is present. -/
theorem stage_check_allow_artifacts (context : StageContext)
    (hallow : (evaluate_stage_constraints context).decision = "allow") :
    ∀ artifact ∈ required_artifacts_of context.current_stage,
      artifact ∈ context.workflow_artifacts := by
  by_cases h1 : (context.current_stage == "prioritize" && pyFalsy context.priority) = true
  · exfalso
    have hb : evaluate_stage_constraints context =
        { decision := "block",
          reason := "Priority information required for prioritization stage",
          constraints := [("required_fields", CVal.strList ["priority"])] } := by
      simp only [evaluate_stage_constraints]
      rw [if_pos h1]
    rw [hb] at hallow
    exact absurd hallow (by decide)
  · by_cases h2 : (context.current_stage == "triage" && context.request_type == "bug"
        && pyFalsy context.severity) = true
    · exfalso
      have hb : evaluate_stage_constraints context =
          { decision := "block",
            reason := "Severity information required for bug triage",
            constraints := [("required_fields", CVal.strList ["severity"])] } := by
        simp only [evaluate_stage_constraints]
        rw [if_neg h1, if_pos h2]
      rw [hb] at hallow
      exact absurd hallow (by decide)
    · by_cases h3 : (!((required_artifacts_of context.current_stage).filter
          (fun artifact => !(context.workflow_artifacts.contains artifact))).isEmpty) = true
      · exfalso
        have hb : (evaluate_stage_constraints context).decision = "block" := by
          simp only [evaluate_stage_constraints]
          rw [if_neg h1, if_neg h2, if_pos h3]
        rw [hb] at hallow
        exact absurd hallow (by decide)
      · have hempty : ((required_artifacts_of context.current_stage).filter
            (fun artifact => !(context.workflow_artifacts.contains artifact))) = [] := by
          have h4 : ((required_artifacts_of context.current_stage).filter
              (fun artifact => !(context.workflow_artifacts.contains artifact))).isEmpty = true := by
            cases hie : ((required_artifacts_of context.current_stage).filter
                (fun artifact => !(context.workflow_artifacts.contains artifact))).isEmpty
            · exact absurd (by rw [hie]; rfl) h3
            · rfl
          exact List.isEmpty_iff.mp h4
        intro artifact hmem
        by_contra hnot
        have hcontains : context.workflow_artifacts.contains artifact = false := by
          cases hc : context.workflow_artifacts.contains artifact
          · rfl
          · exact absurd ((strList_contains_iff _ _).mp hc) hnot
        have hin : artifact ∈ (required_artifacts_of context.current_stage).filter
            (fun artifact => !(context.workflow_artifacts.contains artifact)) := by
          rw [List.mem_filter]
          exact ⟨hmem, by rw [hcontains]; rfl⟩
        rw [hempty] at hin
        cases hin

/-- Content of trimmed length under ten never passes the content check. -/
theorem content_not_allow_short (context : StageContext)
    (hshort : (pyStrip context.issue_content).length < 10) :
    (evaluate_content_appropriateness context).decision ≠ "allow" := by
  cases hf : inappropriate_patterns.find?
      (fun q => pyContains (pyLower context.issue_content) q) with
  | some pattern =>
    rw [content_block_of_find context pattern hf]
    simp
  | none =>
    have hb : evaluate_content_appropriateness context =
        { decision := "block",
          reason := "Issue content too short, minimum 10 characters required",
          constraints := [("min_content_length", CVal.nat 10)] } := by
      simp only [evaluate_content_appropriateness, hf]
      rw [if_pos hshort]
    rw [hb]
    decide

/-- When the gate allows, all five checks passed. -/
theorem eval_allow_checks (i : Int) (s rt sr : String) (p sv : Option String)
    (t co : String) (ar : List String)
    (hd : (evaluate_stage_transition ⟨i, s, rt, sr, p, sv, t, co, ar⟩).decision = "allow") :
    is_valid_stage s = true ∧ is_request_type_allowed rt s = true
    ∧ is_source_allowed sr s = true
    ∧ (evaluate_content_appropriateness ⟨i, s, rt, sr, p, sv, t, co, ar⟩).decision = "allow"
    ∧ (evaluate_stage_constraints ⟨i, s, rt, sr, p, sv, t, co, ar⟩).decision = "allow" := by
  by_cases hv : is_valid_stage s = true
  case neg =>
    exfalso
    have hb : (evaluate_stage_transition ⟨i, s, rt, sr, p, sv, t, co, ar⟩).decision = "block" := by
      simp [evaluate_stage_transition, evaluate_stage_transition_body, Bool.eq_false_iff.mpr hv]
    rw [hb] at hd
    exact absurd hd (by decide)
  case pos =>
  by_cases hr : is_request_type_allowed rt s = true
  case neg =>
    exfalso
    have hb : (evaluate_stage_transition ⟨i, s, rt, sr, p, sv, t, co, ar⟩).decision = "block" := by
      simp [evaluate_stage_transition, evaluate_stage_transition_body, hv,
        Bool.eq_false_iff.mpr hr]
    rw [hb] at hd
    exact absurd hd (by decide)
  case pos =>
  by_cases hsr : is_source_allowed sr s = true
  case neg =>
    exfalso
    have hb : (evaluate_stage_transition ⟨i, s, rt, sr, p, sv, t, co, ar⟩).decision
        = "review_required" := by
      simp [evaluate_stage_transition, evaluate_stage_transition_body, hv, hr,
        Bool.eq_false_iff.mpr hsr]
    rw [hb] at hd
    exact absurd hd (by decide)
  case pos =>
  rcases content_check_shape ⟨i, s, rt, sr, p, sv, t, co, ar⟩
    with hca | ⟨d0, r0, c0, hce, hd0, hr0, hc0⟩
  case inr =>
    exfalso
    have hdne : d0 ≠ "allow" := by
      cases hd0 with
      | inl h => rw [h]; decide
      | inr h => rw [h]; decide
    have hb := eval_content_stop i s rt sr p sv t co ar d0 r0 c0 hv hr hsr hce hdne
    rw [hb] at hd
    exact absurd hd hdne
  case inl =>
  have hcc : (evaluate_content_appropriateness ⟨i, s, rt, sr, p, sv, t, co, ar⟩).decision
      = "allow" := by rw [hca]
  rcases stage_check_shape ⟨i, s, rt, sr, p, sv, t, co, ar⟩
    with hsa | ⟨r0, c0, hse, hr0, hc0⟩
  case inr =>
    exfalso
    have hb := eval_stage_stop i s rt sr p sv t co ar r0 c0 hv hr hsr hcc hse
    rw [hb] at hd
    simp at hd
  case inl =>
  exact ⟨hv, hr, hsr, hcc, by rw [hsa]⟩

/-- C1: Determinism of the Policy Gate.  Two stage contexts that agree on every
field except `issue_id` and `trace_id` receive the same decision, reason and
constraints, and their constructed prompts (when present) are identical except for
the substituted trace-id substring; so `(decision, reason, constraints)` is a pure
function of `(current_stage, request_type, source, priority, severity,
issue_content, workflow_artifacts)`. -/
theorem policy_gate_determinism (c1 c2 : StageContext)
    (hs : c1.current_stage = c2.current_stage)
    (hrt : c1.request_type = c2.request_type)
    (hsrc : c1.source = c2.source)
    (hp : c1.priority = c2.priority)
    (hsev : c1.severity = c2.severity)
    (hco : c1.issue_content = c2.issue_content)
    (ha : c1.workflow_artifacts = c2.workflow_artifacts) :
    (evaluate_stage_transition c1).decision = (evaluate_stage_transition c2).decision
    ∧ (evaluate_stage_transition c1).reason = (evaluate_stage_transition c2).reason
    ∧ (evaluate_stage_transition c1).constraints = (evaluate_stage_transition c2).constraints
    ∧ ((evaluate_stage_transition c1).constructed_prompt.isSome =
        (evaluate_stage_transition c2).constructed_prompt.isSome)
    ∧ (∀ q1 q2, (evaluate_stage_transition c1).constructed_prompt = some q1 →
        (evaluate_stage_transition c2).constructed_prompt = some q2 →
        ∃ pre post, q1 = pre ++ c1.trace_id ++ post ∧ q2 = pre ++ c2.trace_id ++ post) := by
  obtain ⟨i1, s1, rt1, sr1, pr1, sv1, t1, co1, ar1⟩ := c1
  obtain ⟨i2, s2, rt2, sr2, pr2, sv2, t2, co2, ar2⟩ := c2
  have e1 : s1 = s2 := hs
  have e2 : rt1 = rt2 := hrt
  have e3 : sr1 = sr2 := hsrc
  have e4 : pr1 = pr2 := hp
  have e5 : sv1 = sv2 := hsev
  have e6 : co1 = co2 := hco
  have e7 : ar1 = ar2 := ha
  subst e1 e2 e3 e4 e5 e6 e7
  obtain ⟨d, r, cons, pp, hall, hclosed, hiff, hrne, hcne⟩ := eval_master s1 rt1 sr1 pr1 sv1 co1 ar1
  rw [hall i1 t1, hall i2 t2]
  refine ⟨rfl, rfl, rfl, ?_, ?_⟩
  · cases pp <;> rfl
  · intro q1 q2 h1 h2
    cases pp with
    | none => simp at h1
    | some pair =>
      obtain ⟨pre, post⟩ := pair
      simp only [Option.map_some] at h1 h2
      exact ⟨pre, post, (Option.some.inj h1).symm, (Option.some.inj h2).symm⟩

/-- C1 witness: two concrete contexts differing only in issue id and trace id. -/
theorem policy_gate_determinism_witness :
    (evaluate_stage_transition ⟨1, "triage", "bug", "user", none, some "high", "trace-a",
        "App crashes on startup when clicking Save", []⟩).decision =
      (evaluate_stage_transition ⟨2, "triage", "bug", "user", none, some "high", "trace-b",
        "App crashes on startup when clicking Save", []⟩).decision
    ∧ (evaluate_stage_transition ⟨1, "triage", "bug", "user", none, some "high", "trace-a",
        "App crashes on startup when clicking Save", []⟩).reason =
      (evaluate_stage_transition ⟨2, "triage", "bug", "user", none, some "high", "trace-b",
        "App crashes on startup when clicking Save", []⟩).reason
    ∧ (evaluate_stage_transition ⟨1, "triage", "bug", "user", none, some "high", "trace-a",
        "App crashes on startup when clicking Save", []⟩).constraints =
      (evaluate_stage_transition ⟨2, "triage", "bug", "user", none, some "high", "trace-b",
        "App crashes on startup when clicking Save", []⟩).constraints
    ∧ ((evaluate_stage_transition ⟨1, "triage", "bug", "user", none, some "high", "trace-a",
        "App crashes on startup when clicking Save", []⟩).constructed_prompt.isSome =
      (evaluate_stage_transition ⟨2, "triage", "bug", "user", none, some "high", "trace-b",
        "App crashes on startup when clicking Save", []⟩).constructed_prompt.isSome)
    ∧ (∀ q1 q2, (evaluate_stage_transition ⟨1, "triage", "bug", "user", none, some "high",
        "trace-a", "App crashes on startup when clicking Save", []⟩).constructed_prompt = some q1 →
        (evaluate_stage_transition ⟨2, "triage", "bug", "user", none, some "high", "trace-b",
          "App crashes on startup when clicking Save", []⟩).constructed_prompt = some q2 →
        ∃ pre post, q1 = pre ++ "trace-a" ++ post ∧ q2 = pre ++ "trace-b" ++ post) :=
  policy_gate_determinism
    ⟨1, "triage", "bug", "user", none, some "high", "trace-a",
      "App crashes on startup when clicking Save", []⟩
    ⟨2, "triage", "bug", "user", none, some "high", "trace-b",
      "App crashes on startup when clicking Save", []⟩
    rfl rfl rfl rfl rfl rfl rfl

/-- C2: Decision closure and prompt presence.  Every evaluation yields a decision
in the closed set and carries a constructed prompt exactly when the decision is
allow. -/
theorem decision_closure_prompt_iff (context : StageContext) :
    ((evaluate_stage_transition context).decision = "allow"
      ∨ (evaluate_stage_transition context).decision = "review_required"
      ∨ (evaluate_stage_transition context).decision = "block")
    ∧ ((evaluate_stage_transition context).constructed_prompt.isSome = true ↔
        (evaluate_stage_transition context).decision = "allow") := by
  obtain ⟨i, s, rt, sr, p, sv, t, co, ar⟩ := context
  obtain ⟨d, r, cons, pp, hall, hclosed, hiff, hrne, hcne⟩ := eval_master s rt sr p sv co ar
  rw [hall i t]
  refine ⟨hclosed, ?_⟩
  have hmap : (pp.map fun q => q.1 ++ t ++ q.2).isSome = pp.isSome := by
    cases pp <;> rfl
  show (pp.map fun q => q.1 ++ t ++ q.2).isSome = true ↔ d = "allow"
  rw [hmap]
  exact hiff

/-- C5 counterexample: a monitor-sourced request at the user-only `implement` stage
whose content contains the denylisted substring `hack` is answered with
`review_required`, not `block` -- the source check precedes the content check. -/
theorem denylist_counterexample :
    ("hack" ∈ inappropriate_patterns)
    ∧ pyContains (pyLower "please hack the mainframe now") "hack" = true
    ∧ (evaluate_stage_transition ⟨7, "implement", "bug", "monitor", none, none, "tr-5",
        "please hack the mainframe now", []⟩).decision = "review_required"
    ∧ (evaluate_stage_transition ⟨7, "implement", "bug", "monitor", none, none, "tr-5",
        "please hack the mainframe now", []⟩).decision ≠ "block" := by
  have h3 : (evaluate_stage_transition ⟨7, "implement", "bug", "monitor", none, none, "tr-5",
      "please hack the mainframe now", []⟩).decision = "review_required" := rfl
  exact ⟨by decide, by decide, h3, by rw [h3]; decide⟩

/-- C5 amended: content containing a denylisted substring always results in `block`,
except when the stage is valid, the request type is allowed and the source check
fails (non-user source at a user-only stage), in which case the result is
`review_required` because the source check precedes the content check. -/
theorem denylist_amended (context : StageContext) (pattern : String)
    (hmem : pattern ∈ inappropriate_patterns)
    (hcon : pyContains (pyLower context.issue_content) pattern = true) :
    (evaluate_stage_transition context).decision = "block"
    ∨ ((evaluate_stage_transition context).decision = "review_required"
       ∧ is_valid_stage context.current_stage = true
       ∧ is_request_type_allowed context.request_type context.current_stage = true
       ∧ is_source_allowed context.source context.current_stage = false) := by
  obtain ⟨i, s, rt, sr, p, sv, t, co, ar⟩ := context
  by_cases hv : is_valid_stage s = true
  case neg =>
    left
    simp [evaluate_stage_transition, evaluate_stage_transition_body, Bool.eq_false_iff.mpr hv]
  case pos =>
  by_cases hr : is_request_type_allowed rt s = true
  case neg =>
    left
    simp [evaluate_stage_transition, evaluate_stage_transition_body, hv,
      Bool.eq_false_iff.mpr hr]
  case pos =>
  by_cases hsr : is_source_allowed sr s = true
  case neg =>
    have hsf : is_source_allowed sr s = false := Bool.eq_false_iff.mpr hsr
    refine Or.inr ⟨?_, hv, hr, hsf⟩
    simp [evaluate_stage_transition, evaluate_stage_transition_body, hv, hr, hsf]
  case pos =>
  left
  have hsome : (inappropriate_patterns.find?
      (fun q => pyContains (pyLower co) q)).isSome = true :=
    List.find?_isSome.mpr ⟨pattern, hmem, hcon⟩
  obtain ⟨q, hq⟩ := Option.isSome_iff_exists.mp hsome
  have hce : evaluate_content_appropriateness ⟨i, s, rt, sr, p, sv, t, co, ar⟩ =
      { decision := "block",
        reason := "Content contains inappropriate pattern: \x27" ++ q ++ "\x27",
        constraints := [("blocked_patterns", CVal.strList inappropriate_patterns)] } :=
    content_block_of_find ⟨i, s, rt, sr, p, sv, t, co, ar⟩ q hq
  rw [eval_content_stop i s rt sr p sv t co ar "block" _ _ hv hr hsr hce (by decide)]

/-- C5 amended witness: denylisted content at a user-sourced triage request is
blocked. -/
theorem denylist_amended_witness :
    (evaluate_stage_transition ⟨3, "triage", "bug", "user", none, some "high", "tr-3",
        "do not hack this app", []⟩).decision = "block"
    ∨ ((evaluate_stage_transition ⟨3, "triage", "bug", "user", none, some "high", "tr-3",
        "do not hack this app", []⟩).decision = "review_required"
       ∧ is_valid_stage "triage" = true
       ∧ is_request_type_allowed "bug" "triage" = true
       ∧ is_source_allowed "user" "triage" = false) :=
  denylist_amended ⟨3, "triage", "bug", "user", none, some "high", "tr-3",
    "do not hack this app", []⟩ "hack" (by decide) (by decide)

/-- C7: Content validator reference behaviour and check order: denylist scan first
(block, naming the first matching pattern, constraints carrying the full denylist),
then trimmed length under ten (block with the minimum in constraints), then more
than ten exclamation or question marks (review, flagging excessive punctuation),
otherwise allow with empty constraints; content of trimmed length exactly ten that
is otherwise clean passes. -/
theorem content_validator_reference (context : StageContext) :
    (∀ pattern, inappropriate_patterns.find?
        (fun q => pyContains (pyLower context.issue_content) q) = some pattern →
      evaluate_content_appropriateness context =
        { decision := "block",
          reason := "Content contains inappropriate pattern: \x27" ++ pattern ++ "\x27",
          constraints := [("blocked_patterns", CVal.strList inappropriate_patterns)] })
    ∧ (inappropriate_patterns.find?
        (fun q => pyContains (pyLower context.issue_content) q) = none →
      (pyStrip context.issue_content).length < 10 →
      evaluate_content_appropriateness context =
        { decision := "block",
          reason := "Issue content too short, minimum 10 characters required",
          constraints := [("min_content_length", CVal.nat 10)] })
    ∧ (inappropriate_patterns.find?
        (fun q => pyContains (pyLower context.issue_content) q) = none →
      ¬((pyStrip context.issue_content).length < 10) →
      (pyCount context.issue_content '!' > 10 ∨ pyCount context.issue_content '?' > 10) →
      evaluate_content_appropriateness context =
        { decision := "review_required",
          reason := "Content appears spam-like, requires human review",
          constraints := [("spam_indicators", CVal.str "excessive_punctuation")] })
    ∧ (inappropriate_patterns.find?
        (fun q => pyContains (pyLower context.issue_content) q) = none →
      ¬((pyStrip context.issue_content).length < 10) →
      ¬(pyCount context.issue_content '!' > 10 ∨ pyCount context.issue_content '?' > 10) →
      evaluate_content_appropriateness context =
        { decision := "allow", reason := "Content is appropriate", constraints := [] })
    ∧ ((pyStrip context.issue_content).length = 10 →
      inappropriate_patterns.find?
        (fun q => pyContains (pyLower context.issue_content) q) = none →
      ¬(pyCount context.issue_content '!' > 10 ∨ pyCount context.issue_content '?' > 10) →
      (evaluate_content_appropriateness context).decision = "allow") := by
  refine ⟨?_, ?_, ?_, ?_, ?_⟩
  · intro pattern hf
    exact content_block_of_find context pattern hf
  · intro hf hl
    simp only [evaluate_content_appropriateness, hf]
    rw [if_pos hl]
  · intro hf hl hq
    simp only [evaluate_content_appropriateness, hf]
    rw [if_neg hl, if_pos hq]
  · intro hf hl hq
    simp only [evaluate_content_appropriateness, hf]
    rw [if_neg hl, if_neg hq]
  · intro h10 hf hq
    have hl : ¬((pyStrip context.issue_content).length < 10) := by
      rw [h10]
      decide
    simp only [evaluate_content_appropriateness, hf]
    rw [if_neg hl, if_neg hq]

/-- C7 witness: clean content of trimmed length exactly ten passes; whitespace
padding around too-short content still blocks with the minimum-length constraint. -/
theorem content_validator_reference_witness :
    evaluate_content_appropriateness ⟨1, "triage", "bug", "user", none, none, "t",
        "0123456789", []⟩ =
      { decision := "allow", reason := "Content is appropriate", constraints := [] }
    ∧ evaluate_content_appropriateness ⟨1, "triage", "bug", "user", none, none, "t",
        "  short1  ", []⟩ =
      { decision := "block",
        reason := "Issue content too short, minimum 10 characters required",
        constraints := [("min_content_length", CVal.nat 10)] } :=
  ⟨(content_validator_reference ⟨1, "triage", "bug", "user", none, none, "t",
      "0123456789", []⟩).2.2.2.1 (by rfl) (by decide) (by decide),
   (content_validator_reference ⟨1, "triage", "bug", "user", none, none, "t",
      "  short1  ", []⟩).2.1 (by rfl) (by decide)⟩

/-- C10: the denylist scan is a case-insensitive substring containment test: any
context passing the stage, request-type and source checks whose lower-cased content
contains a denylisted pattern (in any letter case, even inside a longer word) is
blocked, with the reason naming the first matching pattern and the constraints
carrying the full denylist. -/
theorem denylist_case_insensitive_substring (context : StageContext) (pattern : String)
    (hv : is_valid_stage context.current_stage = true)
    (hr : is_request_type_allowed context.request_type context.current_stage = true)
    (hsr : is_source_allowed context.source context.current_stage = true)
    (hmem : pattern ∈ inappropriate_patterns)
    (hcon : pyContains (pyLower context.issue_content) pattern = true) :
    ∃ q, inappropriate_patterns.find?
        (fun x => pyContains (pyLower context.issue_content) x) = some q
      ∧ pyContains (pyLower context.issue_content) q = true
      ∧ evaluate_stage_transition context =
        { decision := "block",
          reason := "Content contains inappropriate pattern: \x27" ++ q ++ "\x27",
          constructed_prompt := none,
          constraints := [("blocked_patterns", CVal.strList inappropriate_patterns)] } := by
  obtain ⟨i, s, rt, sr, p, sv, t, co, ar⟩ := context
  have hsome : (inappropriate_patterns.find?
      (fun x => pyContains (pyLower co) x)).isSome = true :=
    List.find?_isSome.mpr ⟨pattern, hmem, hcon⟩
  obtain ⟨q, hq⟩ := Option.isSome_iff_exists.mp hsome
  have hqc := List.find?_some hq
  have hce : evaluate_content_appropriateness ⟨i, s, rt, sr, p, sv, t, co, ar⟩ =
      { decision := "block",
        reason := "Content contains inappropriate pattern: \x27" ++ q ++ "\x27",
        constraints := [("blocked_patterns", CVal.strList inappropriate_patterns)] } :=
    content_block_of_find ⟨i, s, rt, sr, p, sv, t, co, ar⟩ q hq
  exact ⟨q, hq, hqc,
    eval_content_stop i s rt sr p sv t co ar "block" _ _ hv hr hsr hce (by decide)⟩

/-- C10 witness: `Hackathon` (capital H, embedded in a longer word) trips the
`hack` pattern at an otherwise-valid plan-stage context. -/
theorem denylist_case_insensitive_substring_witness :
    ∃ q, inappropriate_patterns.find?
        (fun x => pyContains (pyLower "Join our Hackathon planning session") x) = some q
      ∧ pyContains (pyLower "Join our Hackathon planning session") q = true
      ∧ evaluate_stage_transition ⟨5, "plan", "feature", "user", none, none, "tr-10",
          "Join our Hackathon planning session", ["triage_report"]⟩ =
        { decision := "block",
          reason := "Content contains inappropriate pattern: \x27" ++ q ++ "\x27",
          constructed_prompt := none,
          constraints := [("blocked_patterns", CVal.strList inappropriate_patterns)] } :=
  denylist_case_insensitive_substring
    ⟨5, "plan", "feature", "user", none, none, "tr-10",
      "Join our Hackathon planning session", ["triage_report"]⟩ "hack"
    (by rfl) (by rfl) (by rfl) (by decide) (by decide)

/-- C8: Change Policy Evaluator thresholds and rule order: more than twenty changed
files yields `review_required` with the file cap in constraints whatever the CI
status is (so an oversized CI-failing change reports `review_required`, not
`block`); exactly twenty files passes the count check (no file-cap constraint is
emitted); and a restricted-path hit on a change of at most twenty files yields
`review_required` regardless of CI status, because both review checks precede the
blocking CI and test checks. -/
theorem change_policy_thresholds_order :
    (∀ (context : ChangeContext) (trace_id : String),
        context.changed_files.length > 20 →
        evaluate_implementation_changes context trace_id =
          { decision := "review_required",
            reason := "Too many files changed (" ++ toString context.changed_files.length ++
              "), requires human review",
            constructed_prompt := none,
            constraints := [("max_files_changed", CVal.nat 20)] })
    ∧ (∀ (context : ChangeContext) (trace_id : String),
        context.changed_files.length = 20 →
        ((evaluate_implementation_changes context trace_id).constraints.lookup
          "max_files_changed") = none)
    ∧ (∀ (context : ChangeContext) (trace_id : String) (f : String),
        context.changed_files.length ≤ 20 →
        f ∈ context.changed_files →
        restricted_paths.any (fun restricted => pyStartswith f restricted) = true →
        (evaluate_implementation_changes context trace_id).decision = "review_required") := by
  refine ⟨?_, ?_, ?_⟩
  · intro context trace_id h
    simp only [evaluate_implementation_changes]
    rw [if_pos h]
  · intro context trace_id h20
    have hng : ¬(context.changed_files.length > 20) := by
      rw [h20]
      decide
    simp only [evaluate_implementation_changes]
    rw [if_neg hng]
    split
    · rfl
    · split <;> first | rfl | (split <;> rfl)
  · intro context trace_id f hle hmem hany
    have hng : ¬(context.changed_files.length > 20) := by omega
    have hsome : (context.changed_files.find?
        (fun file_path => restricted_paths.any
          (fun restricted => pyStartswith file_path restricted))).isSome = true :=
      List.find?_isSome.mpr ⟨f, hmem, hany⟩
    obtain ⟨fp, hfp⟩ := Option.isSome_iff_exists.mp hsome
    simp only [evaluate_implementation_changes]
    rw [if_neg hng]
    simp only [hfp]

/-- C8 witness: twenty-one files with failing CI is `review_required`; twenty files
passes the count check; a single restricted-path file with failing CI is still
`review_required`. -/
theorem change_policy_thresholds_order_witness :
    evaluate_implementation_changes ⟨List.replicate 21 "src/app.py", [], "failure", none⟩ "tr-8" =
      { decision := "review_required",
        reason := "Too many files changed (" ++
          toString (List.replicate 21 "src/app.py").length ++ "), requires human review",
        constructed_prompt := none,
        constraints := [("max_files_changed", CVal.nat 20)] }
    ∧ ((evaluate_implementation_changes ⟨List.replicate 20 "src/app.py", [], "success", none⟩
        "tr-8").constraints.lookup "max_files_changed") = none
    ∧ (evaluate_implementation_changes ⟨[".github/workflows/ci.yml"], [], "failure", none⟩
        "tr-8").decision = "review_required" :=
  ⟨change_policy_thresholds_order.1 ⟨List.replicate 21 "src/app.py", [], "failure", none⟩
      "tr-8" (by decide),
   change_policy_thresholds_order.2.1 ⟨List.replicate 20 "src/app.py", [], "success", none⟩
      "tr-8" (by decide),
   change_policy_thresholds_order.2.2 ⟨[".github/workflows/ci.yml"], [], "failure", none⟩
      "tr-8" ".github/workflows/ci.yml" (by decide) (by decide) (by decide)⟩

/-- C9: Invalid-input outcomes never throw.  The gate is a total function (the
embedding mirrors the catch-all handler), and on an unknown stage, a disallowed
request type, a missing priority at prioritize, a missing severity for a bug at
triage, a missing required artifact, denylisted content, or too-short content it
returns a `block` or `review_required` decision with a nonempty human-readable
reason, nonempty machine-readable constraints, and no prompt. -/
theorem invalid_input_never_throws (context : StageContext)
    (h : is_valid_stage context.current_stage = false
      ∨ is_request_type_allowed context.request_type context.current_stage = false
      ∨ (context.current_stage = "prioritize" ∧ pyFalsy context.priority = true)
      ∨ (context.current_stage = "triage" ∧ context.request_type = "bug"
          ∧ pyFalsy context.severity = true)
      ∨ (∃ artifact ∈ required_artifacts_of context.current_stage,
          artifact ∉ context.workflow_artifacts)
      ∨ (∃ pattern ∈ inappropriate_patterns,
          pyContains (pyLower context.issue_content) pattern = true)
      ∨ (pyStrip context.issue_content).length < 10) :
    ((evaluate_stage_transition context).decision = "block"
      ∨ (evaluate_stage_transition context).decision = "review_required")
    ∧ (evaluate_stage_transition context).reason ≠ ""
    ∧ (evaluate_stage_transition context).constraints ≠ []
    ∧ (evaluate_stage_transition context).constructed_prompt = none := by
  obtain ⟨i, s, rt, sr, p, sv, t, co, ar⟩ := context
  obtain ⟨d, r, cons, pp, hall, hclosed, hiff, hrne, hcne⟩ := eval_master s rt sr p sv co ar
  have hdne : d ≠ "allow" := by
    intro hde
    have hdec : (evaluate_stage_transition ⟨i, s, rt, sr, p, sv, t, co, ar⟩).decision
        = "allow" := by
      rw [hall i t]
      exact hde
    obtain ⟨hv, hr, hsr, hcc, hsc⟩ := eval_allow_checks i s rt sr p sv t co ar hdec
    rcases h with h | h | h | h | h | h | h
    · rw [hv] at h
      cases h
    · rw [hr] at h
      cases h
    · obtain ⟨hst, hpf⟩ := h
      have hb := stage_check_priority_block ⟨i, s, rt, sr, p, sv, t, co, ar⟩ hst hpf
      rw [hb] at hsc
      simp at hsc
    · obtain ⟨hst, hrt, hsf⟩ := h
      have hb := stage_check_severity_block ⟨i, s, rt, sr, p, sv, t, co, ar⟩ hst hrt hsf
      rw [hb] at hsc
      simp at hsc
    · obtain ⟨artifact, hamem, hanot⟩ := h
      exact hanot
        (stage_check_allow_artifacts ⟨i, s, rt, sr, p, sv, t, co, ar⟩ hsc artifact hamem)
    · obtain ⟨pattern, hpmem, hpcon⟩ := h
      have hsome : (inappropriate_patterns.find?
          (fun x => pyContains (pyLower co) x)).isSome = true :=
        List.find?_isSome.mpr ⟨pattern, hpmem, hpcon⟩
      obtain ⟨q, hq⟩ := Option.isSome_iff_exists.mp hsome
      have hce := content_block_of_find ⟨i, s, rt, sr, p, sv, t, co, ar⟩ q hq
      rw [hce] at hcc
      simp at hcc
    · exact content_not_allow_short ⟨i, s, rt, sr, p, sv, t, co, ar⟩ h hcc
  have hppn : pp = none := by
    cases hpp : pp with
    | none => rfl
    | some q =>
      exact absurd (hiff.mp (by rw [hpp]; rfl)) hdne
  refine ⟨?_, ?_, ?_, ?_⟩
  · rw [hall i t]
    rcases hclosed with hda | hdr | hdb
    · exact absurd hda hdne
    · exact Or.inr hdr
    · exact Or.inl hdb
  · rw [hall i t]
    exact hrne
  · rw [hall i t]
    exact hcne
  · rw [hall i t]
    rw [hppn]
    rfl

/-- C9 witness: the terminal stage `done` is unknown to the gate and is answered
with a non-allow decision, nonempty reason and constraints, and no prompt. -/
theorem invalid_input_never_throws_witness :
    ((evaluate_stage_transition ⟨9, "done", "bug", "user", none, none, "tr-9",
        "some reasonable content", []⟩).decision = "block"
      ∨ (evaluate_stage_transition ⟨9, "done", "bug", "user", none, none, "tr-9",
        "some reasonable content", []⟩).decision = "review_required")
    ∧ (evaluate_stage_transition ⟨9, "done", "bug", "user", none, none, "tr-9",
        "some reasonable content", []⟩).reason ≠ ""
    ∧ (evaluate_stage_transition ⟨9, "done", "bug", "user", none, none, "tr-9",
        "some reasonable content", []⟩).constraints ≠ []
    ∧ (evaluate_stage_transition ⟨9, "done", "bug", "user", none, none, "tr-9",
        "some reasonable content", []⟩).constructed_prompt = none :=
  invalid_input_never_throws ⟨9, "done", "bug", "user", none, none, "tr-9",
    "some reasonable content", []⟩ (Or.inl (by rfl))

end SelfEvolvingApp

